import Mathlib

/-!
Shallow embedding of the selective DWRF decoder-construction path
(`velox/dwio/dwrf/reader/SelectiveDwrfReader.cpp`) and of the residual
filter extraction contract declared in
`velox/connectors/hive/HiveDataSource.h`.

Decoder construction (`SelectiveDwrfReader::build` and
`buildIntegerReader`) is translated directly from the source.  The
type-compatibility predicate (`dwio::common::typeutils::checkTypeCompatibility`)
and `HiveDataSource::extractFiltersFromRemainingFilter` are declared but not
implemented in the available sources; they are modelled from the
specification, as marked in their doc comments.
-/

namespace Velox

/-- The velox `TypeKind` enumeration, restricted to the kinds that the
dispatch in `SelectiveDwrfReader::build` can observe.  `UNKNOWN` and
`FUNCTION` stand for the kinds that reach the `default` arm of the switch. -/
inductive TypeKind where
  | BOOLEAN
  | TINYINT
  | SMALLINT
  | INTEGER
  | BIGINT
  | HUGEINT
  | REAL
  | DOUBLE
  | VARCHAR
  | VARBINARY
  | TIMESTAMP
  | ARRAY
  | MAP
  | ROW
  | UNKNOWN
  | FUNCTION
  deriving DecidableEq, Repr

/-- Velox logical types as a tree.  Short decimals have kind `BIGINT` and
wide decimals have kind `HUGEINT`, with `isDecimal` true, mirroring how
velox represents `DECIMAL(p, s)` on top of the integer kinds. -/
inductive VeloxType where
  | boolean
  | tinyint
  | smallint
  | integer
  | bigint
  | hugeint
  | shortDecimal (precision scale : Nat)
  | longDecimal (precision scale : Nat)
  | real
  | double
  | varchar
  | varbinary
  | timestamp
  | unknown
  | functionKind
  | array (elem : VeloxType)
  | mapT (key value : VeloxType)
  | row (fields : List VeloxType)

/-- `Type::kind()`. -/
def VeloxType.kind : VeloxType → TypeKind
  | .boolean => .BOOLEAN
  | .tinyint => .TINYINT
  | .smallint => .SMALLINT
  | .integer => .INTEGER
  | .bigint => .BIGINT
  | .hugeint => .HUGEINT
  | .shortDecimal _ _ => .BIGINT
  | .longDecimal _ _ => .HUGEINT
  | .real => .REAL
  | .double => .DOUBLE
  | .varchar => .VARCHAR
  | .varbinary => .VARBINARY
  | .timestamp => .TIMESTAMP
  | .unknown => .UNKNOWN
  | .functionKind => .FUNCTION
  | .array _ => .ARRAY
  | .mapT _ _ => .MAP
  | .row _ => .ROW

/-- `Type::isDecimal()`. -/
def VeloxType.isDecimal : VeloxType → Bool
  | .shortDecimal _ _ => true
  | .longDecimal _ _ => true
  | _ => false

/-- Whether a type is one of the nested (composite) shapes. -/
def VeloxType.isComposite : VeloxType → Bool
  | .array _ => true
  | .mapT _ _ => true
  | .row _ => true
  | _ => false

/-- `mapTypeKindToName`, used to name the offending kind in the
unhandled-type error message. -/
def mapTypeKindToName : TypeKind → String
  | .BOOLEAN => "BOOLEAN"
  | .TINYINT => "TINYINT"
  | .SMALLINT => "SMALLINT"
  | .INTEGER => "INTEGER"
  | .BIGINT => "BIGINT"
  | .HUGEINT => "HUGEINT"
  | .REAL => "REAL"
  | .DOUBLE => "DOUBLE"
  | .VARCHAR => "VARCHAR"
  | .VARBINARY => "VARBINARY"
  | .TIMESTAMP => "TIMESTAMP"
  | .ARRAY => "ARRAY"
  | .MAP => "MAP"
  | .ROW => "ROW"
  | .UNKNOWN => "UNKNOWN"
  | .FUNCTION => "FUNCTION"

/-- Modelled from the spec: the primitive widening directions allowed by
the compatibility check (numeric widening only in the documented
directions, e.g. a REAL column may be requested as DOUBLE).  The
implementation (`dwio::common::typeutils::checkTypeCompatibility` in
`velox/dwio/common/TypeUtils.cpp`) is not among the available sources. -/
def primitiveWidens : TypeKind → TypeKind → Bool
  | .TINYINT, .SMALLINT => true
  | .TINYINT, .INTEGER => true
  | .TINYINT, .BIGINT => true
  | .SMALLINT, .INTEGER => true
  | .SMALLINT, .BIGINT => true
  | .INTEGER, .BIGINT => true
  | .REAL, .DOUBLE => true
  | _, _ => false

mutual

/-- Modelled from the spec: `dwio::common::typeutils::checkTypeCompatibility`
(its implementation is not among the available sources).  The data type and
the requested type must have the same shape (same composite constructor,
same arity for ROW), and leaf kinds must be equal or related by a
documented primitive widening.  The check is reflexive and rejects any
pair differing in shape. -/
def checkTypeCompatibility : VeloxType → VeloxType → Bool
  | .array e, .array r => checkTypeCompatibility e r
  | .mapT k v, .mapT k2 v2 =>
      checkTypeCompatibility k k2 && checkTypeCompatibility v v2
  | .row fs, .row rs => checkTypeListCompatibility fs rs
  | d, r =>
      !d.isComposite && !r.isComposite &&
        (d.kind == r.kind || primitiveWidens d.kind r.kind)

/-- Modelled from the spec: fields of two ROW types are compatible when
they have the same arity and are pairwise compatible. -/
def checkTypeListCompatibility : List VeloxType → List VeloxType → Bool
  | [], [] => true
  | a :: as, b :: bs =>
      checkTypeCompatibility a b && checkTypeListCompatibility as bs
  | _, _ => false

end

/-- `dwio::common::TypeWithId`: a type node together with its node id. -/
structure TypeWithId where
  type : VeloxType
  id : Nat

/-- `proto::ColumnEncoding_Kind`. -/
inductive ColumnEncodingKind where
  | DIRECT
  | DICTIONARY
  | DIRECT_V2
  | DICTIONARY_V2
  | MAP_FLAT
  deriving DecidableEq, Repr

/-- `dwrf::EncodingKey`: node id plus flat-map sequence number. -/
structure EncodingKey where
  id : Nat
  sequence : Nat
  deriving DecidableEq, Repr

/-- `FlatMapContext`, reduced to the sequence number consulted by `build`. -/
structure FlatMapContext where
  sequence : Nat
  deriving DecidableEq, Repr

/-- `DwrfParams`: the stripe metadata that `build` reads.  `stripeStreams`
models `params.stripeStreams().getEncoding(ek).kind()`. -/
structure DwrfParams where
  stripeStreams : EncodingKey → ColumnEncodingKind
  flatMapContext : FlatMapContext

/-- `common::ScanSpec`, not inspected by the dispatch: it is only passed
through to the constructed reader. -/
structure ScanSpec where
  tag : Nat
  deriving DecidableEq, Repr

/-- Output element width of a `SelectiveFloatingPointColumnReader`
instantiation (its template arguments are `float` or `double`). -/
inductive FPWidth where
  | float
  | double
  deriving DecidableEq, Repr

/-- The decoder node that `SelectiveDwrfReader::build` constructs: one
constructor per `std::make_unique<...>` in the source, carrying exactly
the arguments the source passes to that reader class.  In particular the
string and timestamp readers receive only the data type, never the
requested type. -/
inductive SelectiveColumnReader where
  | integerDictionary (requestedType dataType : TypeWithId) (scanSpec : ScanSpec)
      (numBytes : Nat)
  | integerDirect (requestedType dataType : TypeWithId) (numBytes : Nat)
      (scanSpec : ScanSpec)
  | decimal64 (requestedType : TypeWithId) (scanSpec : ScanSpec)
  | decimal128 (requestedType : TypeWithId) (scanSpec : ScanSpec)
  | list (requestedType dataType : TypeWithId) (scanSpec : ScanSpec)
  | flatMap (requestedType dataType : TypeWithId) (scanSpec : ScanSpec)
  | mapReader (requestedType dataType : TypeWithId) (scanSpec : ScanSpec)
  | floatingPoint (fileWidth outWidth : FPWidth) (requestedType : VeloxType)
      (dataType : TypeWithId) (scanSpec : ScanSpec)
  | structReader (requestedType dataType : TypeWithId) (scanSpec : ScanSpec)
      (isRoot : Bool)
  | byteRle (requestedType dataType : TypeWithId) (scanSpec : ScanSpec)
      (isBool : Bool)
  | stringDirect (dataType : TypeWithId) (scanSpec : ScanSpec)
  | stringDictionary (dataType : TypeWithId) (scanSpec : ScanSpec)
  | timestamp (dataType : TypeWithId) (scanSpec : ScanSpec)

/-- The fatal construction errors `build` can raise.  `typeMismatch`
covers the root-row `DWIO_ENSURE` and the compatibility check, following
the error taxonomy of the specification; `unhandledEncoding` and
`unhandledType` are the `DWIO_RAISE` calls, carrying the message text of
the source. -/
inductive BuildError where
  | typeMismatch (msg : String)
  | unhandledEncoding (msg : String)
  | unhandledType (msg : String)

def INT_BYTE_SIZE : Nat := 4
def LONG_BYTE_SIZE : Nat := 8
def SHORT_BYTE_SIZE : Nat := 2

/-- The stripe encoding consulted by the dispatch:
`EncodingKey ek{dataType->id(), params.flatMapContext().sequence}`
followed by `stripe.getEncoding(ek).kind()`. -/
def encodingOf (params : DwrfParams) (dataType : TypeWithId) :
    ColumnEncodingKind :=
  let ek : EncodingKey := ⟨dataType.id, params.flatMapContext.sequence⟩
  params.stripeStreams ek

/-- `buildIntegerReader` from `SelectiveDwrfReader.cpp`: dispatch on the
stripe encoding of the data node. -/
def buildIntegerReader (requestedType dataType : TypeWithId)
    (params : DwrfParams) (numBytes : Nat) (scanSpec : ScanSpec) :
    Except BuildError SelectiveColumnReader :=
  match encodingOf params dataType with
  | .DICTIONARY =>
      .ok (.integerDictionary requestedType dataType scanSpec numBytes)
  | .DICTIONARY_V2 =>
      .ok (.integerDictionary requestedType dataType scanSpec numBytes)
  | .DIRECT =>
      .ok (.integerDirect requestedType dataType numBytes scanSpec)
  | .DIRECT_V2 =>
      .ok (.integerDirect requestedType dataType numBytes scanSpec)
  | _ => .error (.unhandledEncoding "buildReader unhandled integer encoding")

namespace SelectiveDwrfReader

/-- `SelectiveDwrfReader::build` from `SelectiveDwrfReader.cpp`.  The
`DWIO_ENSURE` and `DWIO_RAISE` exits become `Except.error`; the switch on
`dataType->type()->kind()` and the nested encoding switches are translated
arm by arm. -/
def build (requestedType dataType : TypeWithId) (params : DwrfParams)
    (scanSpec : ScanSpec) (isRoot : Bool) :
    Except BuildError SelectiveColumnReader :=
  if isRoot && !(dataType.type.kind == TypeKind.ROW) then
    .error (.typeMismatch "The root object can only be a row.")
  else if checkTypeCompatibility dataType.type requestedType.type then
    match dataType.type.kind with
    | .INTEGER =>
        buildIntegerReader requestedType dataType params INT_BYTE_SIZE scanSpec
    | .BIGINT =>
        if dataType.type.isDecimal then
          .ok (.decimal64 requestedType scanSpec)
        else
          buildIntegerReader requestedType dataType params LONG_BYTE_SIZE
            scanSpec
    | .SMALLINT =>
        buildIntegerReader requestedType dataType params SHORT_BYTE_SIZE
          scanSpec
    | .ARRAY => .ok (.list requestedType dataType scanSpec)
    | .MAP =>
        if encodingOf params dataType == .MAP_FLAT then
          .ok (.flatMap requestedType dataType scanSpec)
        else
          .ok (.mapReader requestedType dataType scanSpec)
    | .REAL =>
        if requestedType.type.kind == .REAL then
          .ok (.floatingPoint .float .float requestedType.type dataType
            scanSpec)
        else
          .ok (.floatingPoint .float .double requestedType.type dataType
            scanSpec)
    | .DOUBLE =>
        .ok (.floatingPoint .double .double requestedType.type dataType
          scanSpec)
    | .ROW => .ok (.structReader requestedType dataType scanSpec isRoot)
    | .BOOLEAN => .ok (.byteRle requestedType dataType scanSpec true)
    | .TINYINT => .ok (.byteRle requestedType dataType scanSpec false)
    | .VARBINARY =>
        match encodingOf params dataType with
        | .DIRECT => .ok (.stringDirect dataType scanSpec)
        | .DIRECT_V2 => .ok (.stringDirect dataType scanSpec)
        | .DICTIONARY => .ok (.stringDictionary dataType scanSpec)
        | .DICTIONARY_V2 => .ok (.stringDictionary dataType scanSpec)
        | _ => .error (.unhandledEncoding "buildReader string unknown encoding")
    | .VARCHAR =>
        match encodingOf params dataType with
        | .DIRECT => .ok (.stringDirect dataType scanSpec)
        | .DIRECT_V2 => .ok (.stringDirect dataType scanSpec)
        | .DICTIONARY => .ok (.stringDictionary dataType scanSpec)
        | .DICTIONARY_V2 => .ok (.stringDictionary dataType scanSpec)
        | _ => .error (.unhandledEncoding "buildReader string unknown encoding")
    | .TIMESTAMP => .ok (.timestamp dataType scanSpec)
    | .HUGEINT =>
        if dataType.type.isDecimal then
          .ok (.decimal128 requestedType scanSpec)
        else
          .error (.unhandledType
            ("buildReader unhandled type: " ++
              mapTypeKindToName dataType.type.kind))
    | k =>
        .error (.unhandledType
          ("buildReader unhandled type: " ++ mapTypeKindToName k))
  else
    .error (.typeMismatch "requested type is not compatible with file type")

end SelectiveDwrfReader

/-- The `numBytes` argument that `build` passes to `buildIntegerReader`
for each integer kind: `INT_BYTE_SIZE` for INTEGER, `LONG_BYTE_SIZE` for
BIGINT, `SHORT_BYTE_SIZE` for SMALLINT. -/
def dispatchNumBytes : TypeKind → Nat
  | .SMALLINT => SHORT_BYTE_SIZE
  | .INTEGER => INT_BYTE_SIZE
  | _ => LONG_BYTE_SIZE

/-- Concrete fixtures used by the witnesses. -/
def spec0 : ScanSpec := ⟨0⟩

def paramsWith (k : ColumnEncodingKind) : DwrfParams :=
  ⟨fun _ => k, ⟨0⟩⟩

/-- C1: if the requested type and the data type are incompatible, `build`
returns a fatal construction error for every logical kind, every stripe
context and every root flag; no decoder node is ever constructed. -/
theorem build_never_constructs_on_incompatible_types
    (requestedType dataType : TypeWithId) (params : DwrfParams)
    (scanSpec : ScanSpec) (isRoot : Bool)
    (h : checkTypeCompatibility dataType.type requestedType.type = false) :
    ∃ e, SelectiveDwrfReader.build requestedType dataType params scanSpec
      isRoot = Except.error e := by
  unfold SelectiveDwrfReader.build
  rw [h]
  split
  · exact ⟨_, rfl⟩
  · exact ⟨_, rfl⟩

/-- Witness for C1 at the shape mismatch of the specification: requesting
ARRAY over a ROW-typed column fails construction. -/
theorem build_never_constructs_on_incompatible_types_witness :
    checkTypeCompatibility (VeloxType.row [VeloxType.integer])
        (VeloxType.array VeloxType.integer) = false ∧
    ∃ e, SelectiveDwrfReader.build ⟨VeloxType.array VeloxType.integer, 0⟩
      ⟨VeloxType.row [VeloxType.integer], 0⟩ (paramsWith .DIRECT) spec0 false
      = Except.error e :=
  ⟨by decide,
    build_never_constructs_on_incompatible_types _ _ _ _ _ (by decide)⟩

/-- C8: with `isRoot` true, a data type whose kind is not ROW fails with
the type-mismatch construction error, and a ROW-shaped data type (with a
compatible requested type) proceeds to the struct decoder case. -/
theorem build_root_must_be_row
    (requestedType dataType : TypeWithId) (params : DwrfParams)
    (scanSpec : ScanSpec) :
    (dataType.type.kind ≠ TypeKind.ROW →
      SelectiveDwrfReader.build requestedType dataType params scanSpec true
        = Except.error (.typeMismatch "The root object can only be a row.")) ∧
    (dataType.type.kind = TypeKind.ROW →
      checkTypeCompatibility dataType.type requestedType.type = true →
      SelectiveDwrfReader.build requestedType dataType params scanSpec true
        = Except.ok (.structReader requestedType dataType scanSpec true)) := by
  constructor
  · intro hk
    unfold SelectiveDwrfReader.build
    have : (dataType.type.kind == TypeKind.ROW) = false := by
      simpa using hk
    rw [this]
    rfl
  · intro hk hc
    unfold SelectiveDwrfReader.build
    rw [hc, hk]
    rfl

/-- Witness for C8: a non-ROW root fails, a ROW root builds the struct
decoder. -/
theorem build_root_must_be_row_witness :
    (SelectiveDwrfReader.build ⟨VeloxType.integer, 0⟩ ⟨VeloxType.integer, 0⟩
        (paramsWith .DIRECT) spec0 true
      = Except.error (.typeMismatch "The root object can only be a row."))
    ∧
    (SelectiveDwrfReader.build ⟨VeloxType.row [], 0⟩ ⟨VeloxType.row [], 0⟩
        (paramsWith .DIRECT) spec0 true
      = Except.ok (.structReader ⟨VeloxType.row [], 0⟩ ⟨VeloxType.row [], 0⟩
          spec0 true)) :=
  ⟨(build_root_must_be_row ⟨VeloxType.integer, 0⟩ ⟨VeloxType.integer, 0⟩
      (paramsWith .DIRECT) spec0).1 (by decide),
   (build_root_must_be_row ⟨VeloxType.row [], 0⟩ ⟨VeloxType.row [], 0⟩
      (paramsWith .DIRECT) spec0).2 rfl (by decide)⟩

/-- Helper: for the non-decimal integer kinds, `build` delegates to
`buildIntegerReader` with the kind-specific byte width. -/
theorem build_integer_kinds_delegate
    (requestedType dataType : TypeWithId) (params : DwrfParams)
    (scanSpec : ScanSpec)
    (hk : dataType.type.kind = TypeKind.INTEGER ∨
      dataType.type.kind = TypeKind.SMALLINT ∨
      (dataType.type.kind = TypeKind.BIGINT ∧
        dataType.type.isDecimal = false))
    (hc : checkTypeCompatibility dataType.type requestedType.type = true) :
    SelectiveDwrfReader.build requestedType dataType params scanSpec false
      = buildIntegerReader requestedType dataType params
          (dispatchNumBytes dataType.type.kind) scanSpec := by
  rcases hk with h | h | ⟨h, hd⟩ <;>
      unfold SelectiveDwrfReader.build <;> rw [hc, h]
  · rfl
  · rfl
  · rw [hd]
    rfl

/-- Helper: the encoding dispatch performed by `buildIntegerReader`. -/
theorem buildIntegerReader_dispatch
    (requestedType dataType : TypeWithId) (params : DwrfParams)
    (numBytes : Nat) (scanSpec : ScanSpec) :
    ((encodingOf params dataType = .DICTIONARY ∨
      encodingOf params dataType = .DICTIONARY_V2) →
      buildIntegerReader requestedType dataType params numBytes scanSpec
        = Except.ok (.integerDictionary requestedType dataType scanSpec
            numBytes)) ∧
    ((encodingOf params dataType = .DIRECT ∨
      encodingOf params dataType = .DIRECT_V2) →
      buildIntegerReader requestedType dataType params numBytes scanSpec
        = Except.ok (.integerDirect requestedType dataType numBytes
            scanSpec)) ∧
    (encodingOf params dataType = .MAP_FLAT →
      buildIntegerReader requestedType dataType params numBytes scanSpec
        = Except.error
            (.unhandledEncoding "buildReader unhandled integer encoding")) := by
  refine ⟨?_, ?_, ?_⟩
  · rintro (he | he) <;> (unfold buildIntegerReader; rw [he])
  · rintro (he | he) <;> (unfold buildIntegerReader; rw [he])
  · intro he
    unfold buildIntegerReader
    rw [he]

/-- C2: for an INTEGER, SMALLINT or non-decimal BIGINT column, `build`
returns the dictionary-indexed integer leaf on DICTIONARY(_V2), the
direct-coded integer leaf on DIRECT(_V2), and the fatal unhandled-encoding
error on every other encoding tag. -/
theorem build_integer_encoding_dispatch
    (requestedType dataType : TypeWithId) (params : DwrfParams)
    (scanSpec : ScanSpec)
    (hk : dataType.type.kind = TypeKind.INTEGER ∨
      dataType.type.kind = TypeKind.SMALLINT ∨
      (dataType.type.kind = TypeKind.BIGINT ∧
        dataType.type.isDecimal = false))
    (hc : checkTypeCompatibility dataType.type requestedType.type = true) :
    ((encodingOf params dataType = .DICTIONARY ∨
      encodingOf params dataType = .DICTIONARY_V2) →
      SelectiveDwrfReader.build requestedType dataType params scanSpec false
        = Except.ok (.integerDictionary requestedType dataType scanSpec
            (dispatchNumBytes dataType.type.kind))) ∧
    ((encodingOf params dataType = .DIRECT ∨
      encodingOf params dataType = .DIRECT_V2) →
      SelectiveDwrfReader.build requestedType dataType params scanSpec false
        = Except.ok (.integerDirect requestedType dataType
            (dispatchNumBytes dataType.type.kind) scanSpec)) ∧
    (encodingOf params dataType ≠ .DICTIONARY →
      encodingOf params dataType ≠ .DICTIONARY_V2 →
      encodingOf params dataType ≠ .DIRECT →
      encodingOf params dataType ≠ .DIRECT_V2 →
      SelectiveDwrfReader.build requestedType dataType params scanSpec false
        = Except.error
            (.unhandledEncoding "buildReader unhandled integer encoding")) := by
  have hb := build_integer_kinds_delegate requestedType dataType params
    scanSpec hk hc
  obtain ⟨h1, h2, h3⟩ := buildIntegerReader_dispatch requestedType dataType
    params (dispatchNumBytes dataType.type.kind) scanSpec
  refine ⟨fun he => hb.trans (h1 he), fun he => hb.trans (h2 he),
    fun n1 n2 n3 n4 => ?_⟩
  cases he : encodingOf params dataType with
  | DIRECT => exact absurd he n3
  | DICTIONARY => exact absurd he n1
  | DIRECT_V2 => exact absurd he n4
  | DICTIONARY_V2 => exact absurd he n2
  | MAP_FLAT => exact hb.trans (h3 he)

/-- Witness for C2: an INTEGER column under each of the three encoding
situations (dictionary, direct, flat-map tag). -/
theorem build_integer_encoding_dispatch_witness :
    (SelectiveDwrfReader.build ⟨VeloxType.integer, 0⟩ ⟨VeloxType.integer, 0⟩
        (paramsWith .DICTIONARY) spec0 false
      = Except.ok (.integerDictionary ⟨VeloxType.integer, 0⟩
          ⟨VeloxType.integer, 0⟩ spec0
          (dispatchNumBytes TypeKind.INTEGER))) ∧
    (SelectiveDwrfReader.build ⟨VeloxType.integer, 0⟩ ⟨VeloxType.integer, 0⟩
        (paramsWith .DIRECT) spec0 false
      = Except.ok (.integerDirect ⟨VeloxType.integer, 0⟩
          ⟨VeloxType.integer, 0⟩ (dispatchNumBytes TypeKind.INTEGER) spec0)) ∧
    (SelectiveDwrfReader.build ⟨VeloxType.integer, 0⟩ ⟨VeloxType.integer, 0⟩
        (paramsWith .MAP_FLAT) spec0 false
      = Except.error
          (.unhandledEncoding "buildReader unhandled integer encoding")) :=
  ⟨(build_integer_encoding_dispatch ⟨VeloxType.integer, 0⟩
      ⟨VeloxType.integer, 0⟩ (paramsWith .DICTIONARY) spec0
      (Or.inl rfl) (by decide)).1 (Or.inl rfl),
   (build_integer_encoding_dispatch ⟨VeloxType.integer, 0⟩
      ⟨VeloxType.integer, 0⟩ (paramsWith .DIRECT) spec0
      (Or.inl rfl) (by decide)).2.1 (Or.inl rfl),
   (build_integer_encoding_dispatch ⟨VeloxType.integer, 0⟩
      ⟨VeloxType.integer, 0⟩ (paramsWith .MAP_FLAT) spec0
      (Or.inl rfl) (by decide)).2.2 (by decide) (by decide) (by decide)
      (by decide)⟩

/-- C3: for a VARCHAR or VARBINARY column, `build` returns the direct
string leaf on DIRECT(_V2), the dictionary string leaf on
DICTIONARY(_V2), and the fatal error on every other encoding tag. -/
theorem build_string_encoding_dispatch
    (requestedType dataType : TypeWithId) (params : DwrfParams)
    (scanSpec : ScanSpec)
    (hk : dataType.type.kind = TypeKind.VARCHAR ∨
      dataType.type.kind = TypeKind.VARBINARY)
    (hc : checkTypeCompatibility dataType.type requestedType.type = true) :
    ((encodingOf params dataType = .DIRECT ∨
      encodingOf params dataType = .DIRECT_V2) →
      SelectiveDwrfReader.build requestedType dataType params scanSpec false
        = Except.ok (.stringDirect dataType scanSpec)) ∧
    ((encodingOf params dataType = .DICTIONARY ∨
      encodingOf params dataType = .DICTIONARY_V2) →
      SelectiveDwrfReader.build requestedType dataType params scanSpec false
        = Except.ok (.stringDictionary dataType scanSpec)) ∧
    (encodingOf params dataType ≠ .DIRECT →
      encodingOf params dataType ≠ .DIRECT_V2 →
      encodingOf params dataType ≠ .DICTIONARY →
      encodingOf params dataType ≠ .DICTIONARY_V2 →
      SelectiveDwrfReader.build requestedType dataType params scanSpec false
        = Except.error
            (.unhandledEncoding "buildReader string unknown encoding")) := by
  refine ⟨?_, ?_, fun n1 n2 n3 n4 => ?_⟩
  · rintro (he | he) <;> rcases hk with h | h <;>
      unfold SelectiveDwrfReader.build <;> rw [hc, h, he] <;> rfl
  · rintro (he | he) <;> rcases hk with h | h <;>
      unfold SelectiveDwrfReader.build <;> rw [hc, h, he] <;> rfl
  · cases he : encodingOf params dataType with
    | DIRECT => exact absurd he n1
    | DIRECT_V2 => exact absurd he n2
    | DICTIONARY => exact absurd he n3
    | DICTIONARY_V2 => exact absurd he n4
    | MAP_FLAT =>
        rcases hk with h | h <;>
          unfold SelectiveDwrfReader.build <;> rw [hc, h, he] <;> rfl

/-- Witness for C3: a VARCHAR column under direct, dictionary and
flat-map encoding tags. -/
theorem build_string_encoding_dispatch_witness :
    (SelectiveDwrfReader.build ⟨VeloxType.varchar, 0⟩ ⟨VeloxType.varchar, 0⟩
        (paramsWith .DIRECT) spec0 false
      = Except.ok (.stringDirect ⟨VeloxType.varchar, 0⟩ spec0)) ∧
    (SelectiveDwrfReader.build ⟨VeloxType.varchar, 0⟩ ⟨VeloxType.varchar, 0⟩
        (paramsWith .DICTIONARY) spec0 false
      = Except.ok (.stringDictionary ⟨VeloxType.varchar, 0⟩ spec0)) ∧
    (SelectiveDwrfReader.build ⟨VeloxType.varchar, 0⟩ ⟨VeloxType.varchar, 0⟩
        (paramsWith .MAP_FLAT) spec0 false
      = Except.error
          (.unhandledEncoding "buildReader string unknown encoding")) :=
  ⟨(build_string_encoding_dispatch ⟨VeloxType.varchar, 0⟩
      ⟨VeloxType.varchar, 0⟩ (paramsWith .DIRECT) spec0 (Or.inl rfl)
      (by decide)).1 (Or.inl rfl),
   (build_string_encoding_dispatch ⟨VeloxType.varchar, 0⟩
      ⟨VeloxType.varchar, 0⟩ (paramsWith .DICTIONARY) spec0 (Or.inl rfl)
      (by decide)).2.1 (Or.inl rfl),
   (build_string_encoding_dispatch ⟨VeloxType.varchar, 0⟩
      ⟨VeloxType.varchar, 0⟩ (paramsWith .MAP_FLAT) spec0 (Or.inl rfl)
      (by decide)).2.2 (by decide) (by decide) (by decide) (by decide)⟩

/-- C4: a logical kind outside the dispatch table (and HUGEINT with a
non-decimal data type) makes `build` fail with the unhandled-type error
naming the offending kind; no default decoder is returned. -/
theorem build_unhandled_type_error
    (requestedType dataType : TypeWithId) (params : DwrfParams)
    (scanSpec : ScanSpec)
    (hk : dataType.type.kind = TypeKind.UNKNOWN ∨
      dataType.type.kind = TypeKind.FUNCTION ∨
      (dataType.type.kind = TypeKind.HUGEINT ∧
        dataType.type.isDecimal = false))
    (hc : checkTypeCompatibility dataType.type requestedType.type = true) :
    SelectiveDwrfReader.build requestedType dataType params scanSpec false
      = Except.error (.unhandledType
          ("buildReader unhandled type: " ++
            mapTypeKindToName dataType.type.kind)) := by
  rcases hk with h | h | ⟨h, hd⟩ <;>
      unfold SelectiveDwrfReader.build <;> rw [hc, h]
  · rfl
  · rfl
  · rw [hd]
    rfl

/-- Witness for C4: a column of UNKNOWN kind fails with the
unhandled-type error naming UNKNOWN. -/
theorem build_unhandled_type_error_witness :
    SelectiveDwrfReader.build ⟨VeloxType.unknown, 0⟩ ⟨VeloxType.unknown, 0⟩
        (paramsWith .DIRECT) spec0 false
      = Except.error (.unhandledType
          ("buildReader unhandled type: " ++
            mapTypeKindToName TypeKind.UNKNOWN)) :=
  build_unhandled_type_error ⟨VeloxType.unknown, 0⟩ ⟨VeloxType.unknown, 0⟩
    (paramsWith .DIRECT) spec0 (Or.inl rfl) (by decide)

/-- C5: a decimal BIGINT column routes to the narrow-decimal (64-bit)
leaf for every stripe context, ignoring the encoding tag; a non-decimal
BIGINT performs the integer encoding dispatch with 8-byte width; a
decimal HUGEINT routes to the wide-decimal (128-bit) leaf. -/
theorem build_decimal_routing
    (requestedType dataType : TypeWithId) (params : DwrfParams)
    (scanSpec : ScanSpec)
    (hc : checkTypeCompatibility dataType.type requestedType.type = true) :
    (dataType.type.kind = TypeKind.BIGINT →
      dataType.type.isDecimal = true →
      SelectiveDwrfReader.build requestedType dataType params scanSpec false
        = Except.ok (.decimal64 requestedType scanSpec)) ∧
    (dataType.type.kind = TypeKind.BIGINT →
      dataType.type.isDecimal = false →
      SelectiveDwrfReader.build requestedType dataType params scanSpec false
        = buildIntegerReader requestedType dataType params LONG_BYTE_SIZE
            scanSpec) ∧
    (dataType.type.kind = TypeKind.HUGEINT →
      dataType.type.isDecimal = true →
      SelectiveDwrfReader.build requestedType dataType params scanSpec false
        = Except.ok (.decimal128 requestedType scanSpec)) := by
  refine ⟨fun hk hd => ?_, fun hk hd => ?_, fun hk hd => ?_⟩ <;>
      unfold SelectiveDwrfReader.build <;> rw [hc, hk, hd] <;> rfl

/-- Witness for C5: a DECIMAL(10, 2) column (kind BIGINT) builds the
narrow-decimal leaf, a plain BIGINT delegates to the integer dispatch,
and a DECIMAL(38, 2) column (kind HUGEINT) builds the wide-decimal
leaf. -/
theorem build_decimal_routing_witness :
    (SelectiveDwrfReader.build ⟨VeloxType.shortDecimal 10 2, 0⟩
        ⟨VeloxType.shortDecimal 10 2, 0⟩ (paramsWith .MAP_FLAT) spec0 false
      = Except.ok (.decimal64 ⟨VeloxType.shortDecimal 10 2, 0⟩ spec0)) ∧
    (SelectiveDwrfReader.build ⟨VeloxType.bigint, 0⟩ ⟨VeloxType.bigint, 0⟩
        (paramsWith .DIRECT) spec0 false
      = buildIntegerReader ⟨VeloxType.bigint, 0⟩ ⟨VeloxType.bigint, 0⟩
          (paramsWith .DIRECT) LONG_BYTE_SIZE spec0) ∧
    (SelectiveDwrfReader.build ⟨VeloxType.longDecimal 38 2, 0⟩
        ⟨VeloxType.longDecimal 38 2, 0⟩ (paramsWith .MAP_FLAT) spec0 false
      = Except.ok (.decimal128 ⟨VeloxType.longDecimal 38 2, 0⟩ spec0)) :=
  ⟨(build_decimal_routing ⟨VeloxType.shortDecimal 10 2, 0⟩
      ⟨VeloxType.shortDecimal 10 2, 0⟩ (paramsWith .MAP_FLAT) spec0
      (by decide)).1 rfl rfl,
   (build_decimal_routing ⟨VeloxType.bigint, 0⟩ ⟨VeloxType.bigint, 0⟩
      (paramsWith .DIRECT) spec0 (by decide)).2.1 rfl rfl,
   (build_decimal_routing ⟨VeloxType.longDecimal 38 2, 0⟩
      ⟨VeloxType.longDecimal 38 2, 0⟩ (paramsWith .MAP_FLAT) spec0
      (by decide)).2.2 rfl rfl⟩

/-- C6: a REAL column produces the float-output floating-point reader
when the requested type is also REAL and the double-output reader for any
other requested type; a DOUBLE column always produces the double-output
reader. -/
theorem build_floating_point_output_width
    (requestedType dataType : TypeWithId) (params : DwrfParams)
    (scanSpec : ScanSpec)
    (hc : checkTypeCompatibility dataType.type requestedType.type = true) :
    (dataType.type.kind = TypeKind.REAL →
      requestedType.type.kind = TypeKind.REAL →
      SelectiveDwrfReader.build requestedType dataType params scanSpec false
        = Except.ok (.floatingPoint .float .float requestedType.type
            dataType scanSpec)) ∧
    (dataType.type.kind = TypeKind.REAL →
      requestedType.type.kind ≠ TypeKind.REAL →
      SelectiveDwrfReader.build requestedType dataType params scanSpec false
        = Except.ok (.floatingPoint .float .double requestedType.type
            dataType scanSpec)) ∧
    (dataType.type.kind = TypeKind.DOUBLE →
      SelectiveDwrfReader.build requestedType dataType params scanSpec false
        = Except.ok (.floatingPoint .double .double requestedType.type
            dataType scanSpec)) := by
  refine ⟨fun hk hr => ?_, fun hk hr => ?_, fun hk => ?_⟩
  · unfold SelectiveDwrfReader.build
    rw [hc, hk, hr]
    rfl
  · have hrb : (requestedType.type.kind == TypeKind.REAL) = false := by
      simpa using hr
    unfold SelectiveDwrfReader.build
    rw [hc, hk, hrb]
    rfl
  · unfold SelectiveDwrfReader.build
    rw [hc, hk]
    rfl

/-- Witness for C6: a REAL column requested as REAL yields the float
output reader, requested as DOUBLE yields the double output reader; a
DOUBLE column yields the double output reader. -/
theorem build_floating_point_output_width_witness :
    (SelectiveDwrfReader.build ⟨VeloxType.real, 0⟩ ⟨VeloxType.real, 0⟩
        (paramsWith .DIRECT) spec0 false
      = Except.ok (.floatingPoint .float .float VeloxType.real
          ⟨VeloxType.real, 0⟩ spec0)) ∧
    (SelectiveDwrfReader.build ⟨VeloxType.double, 0⟩ ⟨VeloxType.real, 0⟩
        (paramsWith .DIRECT) spec0 false
      = Except.ok (.floatingPoint .float .double VeloxType.double
          ⟨VeloxType.real, 0⟩ spec0)) ∧
    (SelectiveDwrfReader.build ⟨VeloxType.double, 0⟩ ⟨VeloxType.double, 0⟩
        (paramsWith .DIRECT) spec0 false
      = Except.ok (.floatingPoint .double .double VeloxType.double
          ⟨VeloxType.double, 0⟩ spec0)) :=
  ⟨(build_floating_point_output_width ⟨VeloxType.real, 0⟩
      ⟨VeloxType.real, 0⟩ (paramsWith .DIRECT) spec0 (by decide)).1 rfl rfl,
   (build_floating_point_output_width ⟨VeloxType.double, 0⟩
      ⟨VeloxType.real, 0⟩ (paramsWith .DIRECT) spec0 (by decide)).2.1 rfl
      (by decide),
   (build_floating_point_output_width ⟨VeloxType.double, 0⟩
      ⟨VeloxType.double, 0⟩ (paramsWith .DIRECT) spec0 (by decide)).2.2
      rfl⟩

/-- C7: a MAP column builds the flat-map composite exactly when the
stripe encoding for the column stream identity is MAP_FLAT, and the
regular two-child map composite for every other encoding tag. -/
theorem build_map_flat_dispatch
    (requestedType dataType : TypeWithId) (params : DwrfParams)
    (scanSpec : ScanSpec)
    (hk : dataType.type.kind = TypeKind.MAP)
    (hc : checkTypeCompatibility dataType.type requestedType.type = true) :
    (encodingOf params dataType = .MAP_FLAT →
      SelectiveDwrfReader.build requestedType dataType params scanSpec false
        = Except.ok (.flatMap requestedType dataType scanSpec)) ∧
    (encodingOf params dataType ≠ .MAP_FLAT →
      SelectiveDwrfReader.build requestedType dataType params scanSpec false
        = Except.ok (.mapReader requestedType dataType scanSpec)) := by
  refine ⟨fun he => ?_, fun he => ?_⟩
  · unfold SelectiveDwrfReader.build
    rw [hc, hk, he]
    rfl
  · have heb : (encodingOf params dataType == ColumnEncodingKind.MAP_FLAT)
        = false := by simpa using he
    unfold SelectiveDwrfReader.build
    rw [hc, hk, heb]
    rfl

/-- Witness for C7: a MAP(VARCHAR, INTEGER) column under the MAP_FLAT tag
builds the flat-map composite, and under DIRECT builds the regular map
composite. -/
theorem build_map_flat_dispatch_witness :
    (SelectiveDwrfReader.build
        ⟨VeloxType.mapT VeloxType.varchar VeloxType.integer, 0⟩
        ⟨VeloxType.mapT VeloxType.varchar VeloxType.integer, 0⟩
        (paramsWith .MAP_FLAT) spec0 false
      = Except.ok (.flatMap
          ⟨VeloxType.mapT VeloxType.varchar VeloxType.integer, 0⟩
          ⟨VeloxType.mapT VeloxType.varchar VeloxType.integer, 0⟩ spec0)) ∧
    (SelectiveDwrfReader.build
        ⟨VeloxType.mapT VeloxType.varchar VeloxType.integer, 0⟩
        ⟨VeloxType.mapT VeloxType.varchar VeloxType.integer, 0⟩
        (paramsWith .DIRECT) spec0 false
      = Except.ok (.mapReader
          ⟨VeloxType.mapT VeloxType.varchar VeloxType.integer, 0⟩
          ⟨VeloxType.mapT VeloxType.varchar VeloxType.integer, 0⟩ spec0)) :=
  ⟨(build_map_flat_dispatch
      ⟨VeloxType.mapT VeloxType.varchar VeloxType.integer, 0⟩
      ⟨VeloxType.mapT VeloxType.varchar VeloxType.integer, 0⟩
      (paramsWith .MAP_FLAT) spec0 rfl (by decide)).1 rfl,
   (build_map_flat_dispatch
      ⟨VeloxType.mapT VeloxType.varchar VeloxType.integer, 0⟩
      ⟨VeloxType.mapT VeloxType.varchar VeloxType.integer, 0⟩
      (paramsWith .DIRECT) spec0 rfl (by decide)).2 (by decide)⟩

/-- C10: for VARCHAR, VARBINARY and TIMESTAMP columns the constructed
decoder does not depend on the requested type: any two requested types
that pass the compatibility check yield the same decoder. -/
theorem build_string_timestamp_independent_of_requested
    (requested1 requested2 dataType : TypeWithId) (params : DwrfParams)
    (scanSpec : ScanSpec)
    (hk : dataType.type.kind = TypeKind.VARCHAR ∨
      dataType.type.kind = TypeKind.VARBINARY ∨
      dataType.type.kind = TypeKind.TIMESTAMP)
    (h1 : checkTypeCompatibility dataType.type requested1.type = true)
    (h2 : checkTypeCompatibility dataType.type requested2.type = true) :
    SelectiveDwrfReader.build requested1 dataType params scanSpec false
      = SelectiveDwrfReader.build requested2 dataType params scanSpec
          false := by
  rcases hk with h | h | h <;>
      unfold SelectiveDwrfReader.build <;> rw [h1, h2, h]

/-- Witness for C10: two distinct requested nodes over the same VARCHAR
column produce the same decoder. -/
theorem build_string_timestamp_independent_of_requested_witness :
    SelectiveDwrfReader.build ⟨VeloxType.varchar, 3⟩ ⟨VeloxType.varchar, 0⟩
        (paramsWith .DIRECT) spec0 false
      = SelectiveDwrfReader.build ⟨VeloxType.varchar, 7⟩
          ⟨VeloxType.varchar, 0⟩ (paramsWith .DIRECT) spec0 false :=
  build_string_timestamp_independent_of_requested ⟨VeloxType.varchar, 3⟩
    ⟨VeloxType.varchar, 7⟩ ⟨VeloxType.varchar, 0⟩ (paramsWith .DIRECT) spec0
    (Or.inl rfl) (by decide) (by decide)

/-! ## Remaining-filter extraction (`HiveDataSource`) -/

/-- A row of concrete column values, indexed by output column number. -/
def Row : Type := Nat → Int

/-- Comparison operators of a pushable single-column predicate. -/
inductive CmpOp where
  | le
  | lt
  | ge
  | gt
  | eq
  | ne
  deriving DecidableEq, Repr

/-- Modelled from the spec: a pushable per-column `common::Filter` — a
single-column, single-sided comparison against a constant (the
`SubfieldFilters` value model; the implementation is not among the
available sources). -/
structure Pred where
  col : Nat
  op : CmpOp
  val : Int
  deriving DecidableEq, Repr

def evalCmp : CmpOp → Int → Int → Bool
  | .le, x, v => decide (x ≤ v)
  | .lt, x, v => decide (x < v)
  | .ge, x, v => decide (v ≤ x)
  | .gt, x, v => decide (v < x)
  | .eq, x, v => decide (x = v)
  | .ne, x, v => decide (¬x = v)

def evalPred (row : Row) (p : Pred) : Bool :=
  evalCmp p.op (row p.col) p.val

/-- Modelled from the spec: flipping the comparison direction of a
pushable predicate, applied when the enclosing context is a logical
NOT. -/
def negatePred (p : Pred) : Pred :=
  { p with
    op :=
      match p.op with
      | .le => .gt
      | .gt => .le
      | .lt => .ge
      | .ge => .lt
      | .eq => .ne
      | .ne => .eq }

theorem evalPred_negatePred (row : Row) (p : Pred) :
    evalPred row (negatePred p) = !evalPred row p := by
  rcases p with ⟨c, op, v⟩
  cases op <;>
      simp only [evalPred, negatePred, evalCmp, ← decide_not] <;>
      exact decide_eq_decide.mpr (by omega)

/-- Modelled from the spec: the residual boolean expression walked by
`HiveDataSource::extractFiltersFromRemainingFilter`.  A leaf is either a
pushable single-column comparison (`pred`) or a predicate that cannot be
represented in the Filter model (`nonConvertible`: multi-column or
non-comparison predicates, kept abstract as a row function). -/
inductive RExpr where
  | lit (b : Bool)
  | pred (p : Pred)
  | nonConvertible (f : Row → Bool)
  | andE (a b : RExpr)
  | orE (a b : RExpr)
  | notE (a : RExpr)

def evalExpr (row : Row) : RExpr → Bool
  | .lit b => b
  | .pred p => evalPred row p
  | .nonConvertible f => f row
  | .andE a b => evalExpr row a && evalExpr row b
  | .orE a b => evalExpr row a || evalExpr row b
  | .notE a => !evalExpr row a

/-- The conjunction of the extracted per-column filters over one row. -/
def evalFilters (row : Row) (fs : List Pred) : Bool :=
  fs.all (evalPred row)

/-- Modelled from the spec: `HiveDataSource::extractFiltersFromRemainingFilter`
(declared in `HiveDataSource.h`; its implementation is not among the
available sources).  Walks the residual expression: a pushable
single-column comparison is removed from the expression and appended to
the extracted filters, with its direction flipped when the enclosing
context is a logical NOT (`negated`); conjunctions are traversed, as are
disjunctions under NOT (a conjunction by De Morgan); any other
sub-expression is left untouched.  The `outFilters` out-parameter of the
source becomes the second component of the result. -/
def extractFiltersFromRemainingFilter : RExpr → Bool → RExpr × List Pred
  | .pred p, negated =>
      (if negated then .lit false else .lit true,
        [if negated then negatePred p else p])
  | .andE a b, false =>
      let ra := extractFiltersFromRemainingFilter a false
      let rb := extractFiltersFromRemainingFilter b false
      (.andE ra.1 rb.1, ra.2 ++ rb.2)
  | .orE a b, true =>
      let ra := extractFiltersFromRemainingFilter a true
      let rb := extractFiltersFromRemainingFilter b true
      (.orE ra.1 rb.1, ra.2 ++ rb.2)
  | .notE a, negated =>
      let ra := extractFiltersFromRemainingFilter a (!negated)
      (.notE ra.1, ra.2)
  | e, _ => (e, [])

/-- Evaluation under an enclosing chain of NOTs summarized by a parity
flag. -/
def evalUnderNeg : Bool → Row → RExpr → Bool
  | true, row, e => !evalExpr row e
  | false, row, e => evalExpr row e

theorem bool_and_interchange (a b c d : Bool) :
    ((a && b) && (c && d)) = ((a && c) && (b && d)) := by
  cases a <;> cases b <;> cases c <;> cases d <;> rfl

/-- Helper: the extraction invariant, generalized over the NOT parity:
the simplified expression conjoined with the extracted filters evaluates
as the input expression did, in the same parity context. -/
theorem extract_preserves_under_neg (e : RExpr) (negated : Bool)
    (row : Row) :
    (evalUnderNeg negated row (extractFiltersFromRemainingFilter e
        negated).1
      && evalFilters row (extractFiltersFromRemainingFilter e negated).2)
    = evalUnderNeg negated row e := by
  induction e generalizing negated with
  | lit b =>
      simp [extractFiltersFromRemainingFilter, evalFilters]
  | pred p =>
      cases negated <;>
        simp [extractFiltersFromRemainingFilter, evalFilters, evalUnderNeg,
          evalExpr, evalPred_negatePred]
  | nonConvertible f =>
      simp [extractFiltersFromRemainingFilter, evalFilters]
  | andE a b iha ihb =>
      cases negated with
      | true => simp [extractFiltersFromRemainingFilter, evalFilters]
      | false =>
          have ha := iha false
          have hb := ihb false
          simp only [extractFiltersFromRemainingFilter, evalUnderNeg,
            evalExpr, evalFilters, List.all_append] at ha hb ⊢
          rw [bool_and_interchange, ha, hb]
  | orE a b iha ihb =>
      cases negated with
      | false => simp [extractFiltersFromRemainingFilter, evalFilters]
      | true =>
          have ha := iha true
          have hb := ihb true
          simp only [extractFiltersFromRemainingFilter, evalUnderNeg,
            evalExpr, evalFilters, List.all_append, Bool.not_or]
            at ha hb ⊢
          rw [bool_and_interchange, ha, hb, ← Bool.not_or]
  | notE a iha =>
      have ha := iha (!negated)
      have flip : ∀ x : RExpr,
          evalUnderNeg negated row (.notE x)
            = evalUnderNeg (!negated) row x := by
        intro x
        cases negated <;> simp [evalUnderNeg, evalExpr]
      simp only [extractFiltersFromRemainingFilter]
      rw [flip, flip, ha]

/-- C9: the round-trip property of filter extraction — for every residual
expression and every row, the original expression evaluates exactly as
the simplified expression conjoined with the extracted per-column
filters; extraction never changes filter semantics. -/
theorem extractFilters_round_trip (e : RExpr) (row : Row) :
    evalExpr row e
      = (evalExpr row (extractFiltersFromRemainingFilter e false).1
        && evalFilters row (extractFiltersFromRemainingFilter e false).2) := by
  have h := extract_preserves_under_neg e false row
  simpa [evalUnderNeg] using h.symm

end Velox
